import Mathlib

/-!
Verification development for the neurst layer library
(`src/neurst/layers/common_layers.py`).

The embedding models each layer's observable behaviour:
* Python keyword-argument dictionaries become association lists of `PyVal`;
  a `KeyError` (or a raised `assert`/`ValueError`) becomes `Except.error`.
* Tensors flowing through `PrePostProcessingWrapper` are kept polymorphic
  (the wrapper is shape-generic in the source); tensors flowing through
  `PositionEmbeddingWrapper` are rank-2 or rank-3 real-valued arrays,
  represented by their shape together with an index function.
* `MultiHeadDenseLayer` is modelled at the shape level: the claims about it
  concern output shapes and runtime shape errors, so each TensorFlow
  operation (`reshape`, `einsum`, bias broadcast, `split`) is translated to
  its shape semantics, including its failure condition.
* Real-valued arithmetic (`sin`, `cos`, `exp`, `log`) is modelled over `ℝ`.
-/

namespace Neurst

/-- A Python value stored in a `**kwargs` dictionary.  Only the shapes of
value the modelled code inspects are distinguished: booleans (truth-tested
by `if is_training:`), strings (compared by `mode != "embedding"`) and
integers. -/
inductive PyVal where
  | pyBool (b : Bool)
  | pyStr (s : String)
  | pyInt (n : Int)
  deriving DecidableEq

/-- Python truthiness, as used by `if is_training:` in
`PrePostProcessingWrapper.call` (line 68). -/
def PyVal.truthy : PyVal → Bool
  | .pyBool b => b
  | .pyStr s => decide (s ≠ "")
  | .pyInt n => decide (n ≠ 0)

/-- A `**kwargs` dictionary: an association list from keyword names to
values (Python dicts have unique keys; lookup takes the first binding). -/
abbrev Kwargs := List (String × PyVal)

/-- `Except` success test (used to state "this call raises" /
"this call does not raise"). -/
def exOk {ε α : Type} : Except ε α → Bool
  | .ok _ => true
  | .error _ => false

/-- `PrePostProcessingWrapper` (common_layers.py lines 21-71).
`T` is the tensor type (the source wrapper is shape- and dtype-generic),
`A` the type of the extra positional arguments `*args` forwarded to the
inner layer.

Fields:
* `dropout_rate` — constructor argument (line 43);
* `layer` — the wrapped inner sub-layer `self._layer` (line 44);
* `norm_layer` — `self._norm_layer`, the
  `tf.keras.layers.LayerNormalization(epsilon=1e-6, dtype="float32")`
  created in `build` (lines 52-56); layer normalization is an external
  tensor-runtime primitive, so it is modelled as an abstract function;
* `dropout` — the external primitive `tf.nn.dropout(y, rate)` (line 69). -/
structure PrePostProcessingWrapper (T A : Type) where
  dropout_rate : ℝ
  layer : T → A → Kwargs → T
  norm_layer : T → T
  dropout : T → ℝ → T

/-- `PrePostProcessingWrapper.call` (lines 58-71), translated statement by
statement:

* `is_training = kwargs["is_training"]` (line 62) — a missing key raises
  `KeyError`, modelled as `Except.error`, before anything else runs;
* `y = self._norm_layer(inputs)` (line 64);
* `y = self._layer(y, *args, **kwargs)` (line 66) — all caller-supplied
  positional and keyword arguments are forwarded;
* `if is_training: y = tf.nn.dropout(y, rate=self._dropout_rate)`
  (lines 68-69);
* `return inputs + y` (line 71) — the residual adds the original,
  unnormalized input. -/
def PrePostProcessingWrapper.call {T A : Type} [Add T]
    (w : PrePostProcessingWrapper T A) (inputs : T) (args : A)
    (kwargs : Kwargs) : Except String T :=
  match kwargs.lookup "is_training" with
  | none => .error "KeyError: is_training"
  | some v =>
    let is_training := v.truthy
    let y := w.norm_layer inputs
    let y := w.layer y args kwargs
    let y := if is_training then w.dropout y w.dropout_rate else y
    .ok (inputs + y)

/-- The `output_units` argument of `MultiHeadDenseLayer` (line 145): either
an int scalar or a (nested) list of ints.  `tf.nest` treats any list as a
nested structure and a bare int as a non-nested scalar. -/
inductive OutputUnits where
  | scalar (n : Nat)
  | nested (l : List Nat)
  deriving DecidableEq

/-- `tf.nest.flatten(self._output_units)` (line 177): a scalar flattens to
the one-element list, a list flattens to itself. -/
def OutputUnits.flatten : OutputUnits → List Nat
  | .scalar n => [n]
  | .nested l => l

/-- `tf.nest.is_nested(self._output_units)` (line 179): true exactly for a
list specification. -/
def OutputUnits.is_nested : OutputUnits → Bool
  | .scalar _ => false
  | .nested _ => true

/-- The scalar value of an `output_units` specification; only meaningful in
output-transform mode, where `__init__` has asserted non-nestedness
(line 179) and the source uses `self._output_units` directly as a
dimension (lines 195, 202). -/
def OutputUnits.scalarVal : OutputUnits → Nat
  | .scalar n => n
  | .nested _ => 0

/-- `MultiHeadDenseLayer` configuration state after `__init__`
(lines 144-179).  Only the fields that determine shapes and shape errors
are kept (`kernel_initializer`, `bias_initializer`, `activation` and the
layer name affect values and naming only; the activation is elementwise
and shape-preserving, lines 266-268). -/
structure MultiHeadDenseLayer where
  output_units : OutputUnits
  num_heads : Nat
  use_bias : Bool
  is_output_transform : Bool
  deriving DecidableEq

/-- `MultiHeadDenseLayer.__init__` (lines 144-179).  The only validation is
`assert not tf.nest.is_nested(self._output_units)` when
`is_output_transform` is set (lines 178-179); an `AssertionError` is
modelled as `Except.error`.  No divisibility condition between
`output_units` and `num_heads` is checked here. -/
def MultiHeadDenseLayer.init (output_units : OutputUnits) (num_heads : Nat)
    (use_bias : Bool) (is_output_transform : Bool) :
    Except String MultiHeadDenseLayer :=
  if is_output_transform && output_units.is_nested then
    .error "AssertionError: not tf.nest.is_nested(output_units)"
  else
    .ok ⟨output_units, num_heads, use_bias, is_output_transform⟩

/-- Shape semantics of `tf.reshape` with a single `-1` (inferred)
dimension, as used on the kernel (line 239 with `kernel_shape`,
lines 198-203): the inferred dimension is `total / known` and the reshape
fails unless `known` is positive and divides the total element count. -/
def inferReshapeDim (total known : Nat) : Option Nat :=
  if known = 0 then none
  else if total % known = 0 then some (total / known) else none

/-- Shape semantics of broadcasting a rank-1 bias of size `biasDim` onto a
tensor whose last dimension is `lastDim` (`output += self._bias`,
line 254). -/
def biasBroadcastOk (lastDim biasDim : Nat) : Bool :=
  lastDim == biasDim || biasDim == 1

/-- Shape semantics of `MultiHeadDenseLayer.call` on the first call
(lines 210-269; Keras `build` runs first with the call's input shape,
lines 210-224).  Returns the flattened list of output shapes
(`tf.nest.pack_sequence_as` only regroups them, line 269), or an error
when a TensorFlow shape check fails at runtime.

* Output-transform mode (`is_output_transform` True): the stored kernel
  has compat shape `[c*d, e]` (lines 194-195, input `[a,b,c,d]`) and is
  reshaped to `[num_heads, -1, e]` (lines 201-202, 239); then
  `tf.einsum("abcd,cde->abe", ...)` (line 246) requires the input's third
  dimension to equal `num_heads` and its fourth to equal the inferred
  kernel dimension; the bias has shape `[output_units]` (lines 206-208).
* Split mode: the kernel has compat shape `[c, sum(flatten)]`
  (line 196) reshaped to `[-1, sum(flatten)]` (line 203, 239); then
  `tf.einsum("abc,cd->abd", ...)` (line 252) gives `[a, b, sum]`;
  the bias has shape `[sum]`; `tf.split(output, flatten, axis=-1)`
  (lines 257-259) yields one piece `[a, b, u]` per entry `u` of the
  flattened `output_units`; each piece is reshaped to
  `[a, b, num_heads, u // num_heads]` (lines 260-264), which fails unless
  the element counts agree. -/
def MultiHeadDenseLayer.call (m : MultiHeadDenseLayer)
    (inputShape : List Nat) : Except String (List (List Nat)) :=
  if m.is_output_transform then
    match inputShape with
    | [a, b, c, d] =>
      let e := m.output_units.scalarVal
      match inferReshapeDim (c * d * e) (m.num_heads * e) with
      | none => .error "tf.reshape: cannot reshape kernel"
      | some q =>
        if c = m.num_heads ∧ d = q then
          if m.use_bias && !biasBroadcastOk e m.output_units.flatten.sum then
            .error "broadcast: incompatible bias shape"
          else
            .ok [[a, b, e]]
        else .error "tf.einsum: dimension mismatch"
    | _ => .error "tf.einsum: expects rank-4 input"
  else
    match inputShape with
    | [a, b, c] =>
      let s := m.output_units.flatten.sum
      match inferReshapeDim (c * s) s with
      | none => .error "tf.reshape: cannot reshape kernel"
      | some q =>
        if c = q then
          if m.use_bias && !biasBroadcastOk s s then
            .error "broadcast: incompatible bias shape"
          else if m.output_units.flatten.sum ≠ s then
            .error "tf.split: sizes do not sum to dimension"
          else if m.output_units.flatten.all
              (fun u => a * b * u == a * b * (m.num_heads * (u / m.num_heads))) then
            .ok (m.output_units.flatten.map
              (fun u => [a, b, m.num_heads, u / m.num_heads]))
          else .error "tf.reshape: cannot reshape split piece"
        else .error "tf.einsum: dimension mismatch"
    | _ => .error "tf.einsum: expects rank-3 input"

/-- Reassembling a split-mode output: concatenating the per-head slices
over the head axis and flattening the last two dimensions of a
`[a, b, heads, units_per_head]` tensor yields `[a, b, heads * units_per_head]`. -/
def mergeHeadsShape : List Nat → List Nat
  | [a, b, h, u] => [a, b, h * u]
  | s => s

/-- A real-valued TensorFlow tensor of static rank 2 (`[batch, channels]`,
the single-step regime) or rank 3 (`[batch, length, channels]`, the
full-sequence regime), represented by its shape and an index function. -/
inductive TTensor where
  | r2 (batch channels : Nat) (data : Nat → Nat → ℝ)
  | r3 (batch length channels : Nat) (data : Nat → Nat → Nat → ℝ)

/-- `x.get_shape().ndims` (lines 347, 350, 379). -/
def TTensor.ndims : TTensor → Nat
  | .r2 .. => 2
  | .r3 .. => 3

/-- `x.get_shape()[-1]` / `get_shape().as_list()[-1]`, the channel
dimension (lines 346, 375). -/
def TTensor.lastDim : TTensor → Nat
  | .r2 _ c _ => c
  | .r3 _ _ c _ => c

/-- Elementwise scaling, `emb *= self._embedding_dim ** 0.5` (line 383). -/
noncomputable def TTensor.scaleBy : TTensor → ℝ → TTensor
  | .r2 bsz ch d, s => .r2 bsz ch (fun i j => d i j * s)
  | .r3 bsz len ch d, s => .r3 bsz len ch (fun i p j => d i p j * s)

/-- The rank-3 entries of a successful call result (`0` outside the
success/rank-3 case); used to state properties of returned tensors. -/
def exData3 : Except String TTensor → Nat → Nat → Nat → ℝ
  | .ok (.r3 _ _ _ d), b, p, c => d b p c
  | _, _, _, _ => 0

/-- The rank-2 entries of a successful call result (`0` outside the
success/rank-2 case). -/
def exData2 : Except String TTensor → Nat → Nat → ℝ
  | .ok (.r2 _ _ d), b, c => d b c
  | _, _, _ => 0

/-- `num_timescales = channels // 2` (line 355). -/
def num_timescales (channels : Nat) : Nat := channels / 2

/-- `log_timescale_increment` (lines 356-358):
`math.log(max_timescale / min_timescale) / (num_timescales - 1)`,
under exact real arithmetic (Mathlib real division maps the
`num_timescales = 1` denominator `0` to `0`; TensorFlow float division
yields `+inf` there — that float behaviour is modelled separately below
by `fp_log_timescale_increment`). -/
noncomputable def log_timescale_increment
    (min_timescale max_timescale : ℝ) (channels : Nat) : ℝ :=
  Real.log (max_timescale / min_timescale) /
    ((num_timescales channels : ℝ) - 1)

/-- `inv_timescales[i] = min_timescale * exp(i * -log_timescale_increment)`
(lines 359-360). -/
noncomputable def inv_timescale
    (min_timescale max_timescale : ℝ) (channels : Nat) (i : Nat) : ℝ :=
  min_timescale *
    Real.exp ((i : ℝ) * -(log_timescale_increment min_timescale max_timescale channels))

/-- The sinusoidal signal value at absolute position `pos` and channel `c`
(lines 361-363): `scaled_time = position * inv_timescales`; the first
`num_timescales` channels hold `sin(scaled_time)`, the next
`num_timescales` hold `cos(scaled_time)` (`tf.concat` along the channel
axis), and `tf.pad` appends `channels % 2` trailing zero channels. -/
noncomputable def timingSignal
    (min_timescale max_timescale : ℝ) (channels : Nat) (pos : ℝ) (c : Nat) : ℝ :=
  if c < num_timescales channels then
    Real.sin (pos * inv_timescale min_timescale max_timescale channels c)
  else if c < 2 * num_timescales channels then
    Real.cos (pos * inv_timescale min_timescale max_timescale channels
      (c - num_timescales channels))
  else 0

/-- An IEEE-754 floating-point value as produced by lines 356-363 under
TensorFlow float arithmetic: a finite real, a signed infinity, or a
`nan`.  Rounding is not modelled — only the propagation of the special
values `inf` and `nan` through the operations those lines perform, which
is what distinguishes the float computation from the exact real one. -/
inductive FpVal where
  | fin (x : ℝ)
  | posInf
  | negInf
  | nan

/-- IEEE negation (the `-log_timescale_increment` at line 360). -/
def FpVal.fneg : FpVal → FpVal
  | .fin x => .fin (-x)
  | .posInf => .negInf
  | .negInf => .posInf
  | .nan => .nan

/-- IEEE multiplication (lines 360-361): `nan` absorbs, finite times
finite is finite, zero times an infinity is `nan` (the step that poisons
`inv_timescales` when the timescale increment is infinite), and a
nonzero finite factor keeps an infinity with the sign rule. -/
noncomputable def FpVal.fmul : FpVal → FpVal → FpVal
  | .nan, _ => .nan
  | _, .nan => .nan
  | .fin x, .fin y => .fin (x * y)
  | .fin x, .posInf => if 0 < x then .posInf else if x < 0 then .negInf else .nan
  | .fin x, .negInf => if 0 < x then .negInf else if x < 0 then .posInf else .nan
  | .posInf, .fin y => if 0 < y then .posInf else if y < 0 then .negInf else .nan
  | .negInf, .fin y => if 0 < y then .negInf else if y < 0 then .posInf else .nan
  | .posInf, .posInf => .posInf
  | .posInf, .negInf => .negInf
  | .negInf, .posInf => .negInf
  | .negInf, .negInf => .posInf

/-- IEEE division of two finite values — the only shape line 358
produces (`math.log(...)` is a finite Python float, `num_timescales - 1`
a finite tensor scalar): division by zero gives a signed infinity, and
`0 / 0` gives `nan`. -/
noncomputable def fpDivFin (x y : ℝ) : FpVal :=
  if y = 0 then (if 0 < x then .posInf else if x < 0 then .negInf else .nan)
  else .fin (x / y)

/-- IEEE `exp` (lines 359-360): `exp(-inf) = 0`, `exp(+inf) = +inf`,
`exp(nan) = nan`. -/
noncomputable def FpVal.fexp : FpVal → FpVal
  | .fin x => .fin (Real.exp x)
  | .posInf => .posInf
  | .negInf => .fin 0
  | .nan => .nan

/-- IEEE `sin` (line 362): `sin` of an infinity or of `nan` is `nan`. -/
noncomputable def FpVal.fsin : FpVal → FpVal
  | .fin x => .fin (Real.sin x)
  | _ => .nan

/-- IEEE `cos` (line 362): `cos` of an infinity or of `nan` is `nan`. -/
noncomputable def FpVal.fcos : FpVal → FpVal
  | .fin x => .fin (Real.cos x)
  | _ => .nan

/-- Lines 356-358 under TensorFlow float arithmetic:
`log_timescale_increment = log(max/min) / (num_timescales - 1)`.  With
`num_timescales = 1` (channel count 2 or 3) this divides a positive
float by `0.0` and yields `+inf`. -/
noncomputable def fp_log_timescale_increment
    (min_timescale max_timescale : ℝ) (channels : Nat) : FpVal :=
  fpDivFin (Real.log (max_timescale / min_timescale))
    ((num_timescales channels : ℝ) - 1)

/-- Lines 359-360 under float arithmetic:
`inv_timescales[i] = min_timescale * exp(i * -log_timescale_increment)`.
When the increment is `+inf`, the product `0 * -inf` at `i = 0` is `nan`
and `exp(nan) = nan`, so the whole entry is `nan`. -/
noncomputable def fp_inv_timescale
    (min_timescale max_timescale : ℝ) (channels : Nat) (i : Nat) : FpVal :=
  FpVal.fmul (.fin min_timescale)
    (FpVal.fexp (FpVal.fmul (.fin (i : ℝ))
      (FpVal.fneg (fp_log_timescale_increment min_timescale max_timescale channels))))

/-- Lines 361-363 under float arithmetic: the signal value at absolute
position `pos` and channel `c` — `sin(position * inv_timescales)` on the
first `num_timescales` channels, `cos` on the next `num_timescales`,
zero padding after (same layout as the real-valued `timingSignal`). -/
noncomputable def fp_timingSignal
    (min_timescale max_timescale : ℝ) (channels : Nat) (pos : ℝ) (c : Nat) : FpVal :=
  if c < num_timescales channels then
    FpVal.fsin (FpVal.fmul (.fin pos)
      (fp_inv_timescale min_timescale max_timescale channels c))
  else if c < 2 * num_timescales channels then
    FpVal.fcos (FpVal.fmul (.fin pos)
      (fp_inv_timescale min_timescale max_timescale channels
        (c - num_timescales channels)))
  else .fin 0

/-- The position-embedding timing mode after the constructor assertion
(lines 293-294): `None`, `"sinusoids"` or `"emb"` (`None` is represented
by `Option.none` around this type). -/
inductive Timing where
  | sinusoids
  | emb
  deriving DecidableEq

/-- `PositionEmbeddingWrapper` state (lines 272-311).  `embedding_dim` is
taken from the wrapped embedding layer (line 291); `position_emb_table`
models the learned `[max_positions, embedding_dim]` weight table created
in `build` for `timing="emb"` (lines 303-311). -/
structure PositionEmbeddingWrapper where
  timing : Option Timing
  embedding_dim : Nat
  max_positions : Nat
  position_emb_table : Nat → Nat → ℝ

/-- `PositionEmbeddingWrapper.__init__` (lines 274-294): the constructor
asserts that `timing` is one of `None`, `"sinusoids"`, `"emb"`; any other
string is a construction-time `AssertionError`. -/
def PositionEmbeddingWrapper.init (timing : Option String)
    (embedding_dim max_positions : Nat) (table : Nat → Nat → ℝ) :
    Except String PositionEmbeddingWrapper :=
  match timing with
  | none => .ok ⟨none, embedding_dim, max_positions, table⟩
  | some s =>
    if s = ("sinusoids") then .ok ⟨some .sinusoids, embedding_dim, max_positions, table⟩
    else if s = ("emb") then .ok ⟨some .emb, embedding_dim, max_positions, table⟩
    else .error ("AssertionError: unknown position embedding type")

/-- `PositionEmbeddingWrapper.add_sinusoids_timing_signal`
(lines 313-368).  For a rank-3 input the positions are `0..length-1`
(lines 347-349) and the `[1, length, channels]` signal is broadcast-added
over the batch axis (lines 364-368); for a rank-2 input the single
position is the external `time` index (lines 350-352) and the
`[1, channels]` signal is broadcast-added over the batch axis.  A rank-2
call without `time` fails (`tf.range(None, None + 1)` raises). -/
noncomputable def PositionEmbeddingWrapper.add_sinusoids_timing_signal
    (x : TTensor) (time : Option Nat)
    (min_timescale max_timescale : ℝ) : Except String TTensor :=
  match x with
  | .r3 bsz len ch d =>
    .ok (.r3 bsz len ch (fun i p j =>
      d i p j + timingSignal min_timescale max_timescale ch (p : ℝ) j))
  | .r2 bsz ch d =>
    match time with
    | some t =>
      .ok (.r2 bsz ch (fun i j =>
        d i j + timingSignal min_timescale max_timescale ch (t : ℝ) j))
    | none => .error ("TypeError: time is None")

/-- `PositionEmbeddingWrapper.call` (lines 370-394), statement by
statement:

* `emb = self._embedding_layer(inputs, **kwargs)` (line 371);
* `mode = kwargs.get("mode", "embedding")` (line 372);
* if `self._timing is None or mode != "embedding"`, return `emb`
  unchanged (lines 373-374);
* assert the embedding channel dimension matches `embedding_dim`
  (lines 375-378);
* if `emb` has rank 2 and `time` is `None`, raise a `ValueError`
  (lines 379-381);
* `timing == "sinusoids"`: scale by `embedding_dim ** 0.5` and add the
  sinusoidal signal with the default timescales `1.0` and `1.0e4`
  (lines 382-385);
* `timing == "emb"`: gather the learned table at `time` (rank 2) or at
  positions `0..length-1` (rank 3) and broadcast-add over the batch axis
  (lines 386-394). -/
noncomputable def PositionEmbeddingWrapper.call {I : Type}
    (w : PositionEmbeddingWrapper) (embedding_layer : I → Kwargs → TTensor)
    (inputs : I) (time : Option Nat) (kwargs : Kwargs) :
    Except String TTensor :=
  let emb := embedding_layer inputs kwargs
  let mode := (kwargs.lookup ("mode")).getD (.pyStr ("embedding"))
  if w.timing = none ∨ mode ≠ PyVal.pyStr ("embedding") then .ok emb
  else if emb.lastDim ≠ w.embedding_dim then
    .error ("AssertionError: the position embedding dimension should match the embedding dimension")
  else if emb.ndims = 2 ∧ time = none then
    .error ("ValueError: time should be provided when input x has 2-dims")
  else
    match w.timing with
    | some .sinusoids =>
      PositionEmbeddingWrapper.add_sinusoids_timing_signal
        (emb.scaleBy (Real.sqrt (w.embedding_dim : ℝ))) time 1 10000
    | some .emb =>
      match emb, time with
      | .r2 bsz ch d, some t =>
        .ok (.r2 bsz ch (fun i j => d i j + w.position_emb_table t j))
      | .r2 _ _ _, none => .error ("ValueError: time is None")
      | .r3 bsz len ch d, _ =>
        .ok (.r3 bsz len ch (fun i p j => d i p j + w.position_emb_table p j))
    | none => .ok emb

end Neurst

namespace Neurst

/-- Claim C2: `PrePostProcessingWrapper.call` computes exactly
`y = norm(input)`, then `y = inner(y)` with all caller-supplied arguments
forwarded, then dropout iff in training mode, and finally returns the
original unnormalized `input` plus `y`. -/
theorem ppw_call_sequence {T A : Type} [Add T]
    (w : PrePostProcessingWrapper T A) (inputs : T) (args : A)
    (kwargs : Kwargs) (v : PyVal)
    (hk : kwargs.lookup "is_training" = some v) :
    w.call inputs args kwargs =
      .ok (inputs +
        (if v.truthy then
          w.dropout (w.layer (w.norm_layer inputs) args kwargs) w.dropout_rate
        else
          w.layer (w.norm_layer inputs) args kwargs)) := by
  unfold PrePostProcessingWrapper.call
  rw [hk]

/-- Witness for C2 at a concrete wrapper over `ℤ` in training mode. -/
theorem ppw_call_sequence_witness :
    (PrePostProcessingWrapper.call
      ⟨(0 : ℝ), fun y _ _ => y + 1, fun y => y * 2, fun y _ => y * 3⟩
      (5 : ℤ) () [("is_training", PyVal.pyBool true)]) =
    .ok (5 + (5 * 2 + 1) * 3) := by
  have h := ppw_call_sequence (T := ℤ) (A := Unit)
    ⟨(0 : ℝ), fun y _ _ => y + 1, fun y => y * 2, fun y _ => y * 3⟩
    5 () [("is_training", PyVal.pyBool true)] (PyVal.pyBool true) rfl
  simpa using h

/-- Claim C8: in inference mode (`is_training` false), when the inner
sub-layer returns the all-zero tensor, `PrePostProcessingWrapper.call` is
the identity: it returns exactly its input. -/
theorem ppw_inference_zero_identity {T A : Type} [AddZeroClass T]
    (w : PrePostProcessingWrapper T A) (inputs : T) (args : A)
    (kwargs : Kwargs) (v : PyVal)
    (hk : kwargs.lookup "is_training" = some v)
    (hv : v.truthy = false)
    (hz : w.layer (w.norm_layer inputs) args kwargs = 0) :
    w.call inputs args kwargs = .ok inputs := by
  unfold PrePostProcessingWrapper.call
  rw [hk]
  simp [hv, hz]

/-- Witness for C8: a concrete wrapper over `ℤ` whose inner layer returns
`0`, called in inference mode, returns its input `7` unchanged. -/
theorem ppw_inference_zero_identity_witness :
    (PrePostProcessingWrapper.call
      ⟨(0 : ℝ), fun _ _ _ => 0, fun y => y * 2, fun y _ => y * 3⟩
      (7 : ℤ) () [("is_training", PyVal.pyBool false)]) = .ok 7 :=
  ppw_inference_zero_identity (T := ℤ) (A := Unit)
    ⟨(0 : ℝ), fun _ _ _ => 0, fun y => y * 2, fun y _ => y * 3⟩
    7 () [("is_training", PyVal.pyBool false)] (PyVal.pyBool false)
    rfl rfl rfl

/-- Claim C9: a call that does not supply the keyword `is_training` fails
with a missing-key error immediately, for every wrapper (hence before the
normalization, the inner layer, or the residual addition can run):
the result is the same error regardless of `norm_layer`, `layer` and
`dropout`. -/
theorem ppw_missing_is_training {T A : Type} [Add T]
    (w : PrePostProcessingWrapper T A) (inputs : T) (args : A)
    (kwargs : Kwargs)
    (hk : kwargs.lookup "is_training" = none) :
    w.call inputs args kwargs = .error "KeyError: is_training" := by
  unfold PrePostProcessingWrapper.call
  rw [hk]

/-- Witness for C9: a concrete call with an empty kwargs dictionary fails
with the missing-key error. -/
theorem ppw_missing_is_training_witness :
    (PrePostProcessingWrapper.call
      ⟨(0 : ℝ), fun y _ _ => y + 1, fun y => y * 2, fun y _ => y * 3⟩
      (5 : ℤ) () []) = .error "KeyError: is_training" :=
  ppw_missing_is_training (T := ℤ) (A := Unit)
    ⟨(0 : ℝ), fun y _ _ => y + 1, fun y => y * 2, fun y _ => y * 3⟩
    5 () [] rfl

/-- Evaluation of a split-mode call with a scalar `output_units` on a
rank-3 input: every shape check before the per-piece reshape passes, and
the call succeeds exactly when the piece reshape preserves the element
count. -/
theorem mhd_call_split_scalar (n h : Nat) (ub : Bool) (a b c : Nat)
    (hn0 : n ≠ 0) :
    MultiHeadDenseLayer.call ⟨.scalar n, h, ub, false⟩ [a, b, c] =
      (if a * b * n = a * b * (h * (n / h)) then
        .ok [[a, b, h, n / h]]
      else .error "tf.reshape: cannot reshape split piece") := by
  simp only [MultiHeadDenseLayer.call, OutputUnits.flatten, List.sum_cons,
    List.sum_nil, Nat.add_zero, inferReshapeDim, hn0, if_false,
    Nat.mul_mod_left, if_true, Nat.mul_div_cancel _ (Nat.pos_of_ne_zero hn0),
    biasBroadcastOk, beq_self_eq_true, Bool.true_or, Bool.not_true,
    Bool.and_false, Bool.false_eq_true, ne_eq, not_true_eq_false,
    List.all_cons, List.all_nil, Bool.and_true, List.map_cons, List.map_nil]
  split
  · rename_i hcond
    simp only [beq_iff_eq] at hcond
    simp [hcond]
  · rename_i hcond
    simp only [beq_iff_eq] at hcond
    simp [hcond]

/-- Counterexample to claim C1 as stated: with `output_units = 7` not
divisible by `num_heads = 2`, construction with `is_output_transform=True`
succeeds — `__init__` performs no divisibility check. -/
theorem mhd_indivisible_transform_init_succeeds :
    MultiHeadDenseLayer.init (.scalar 7) 2 true true =
      .ok ⟨.scalar 7, 2, true, true⟩ := rfl

/-- Claim C1 (amended): when `output_units` is a scalar not evenly
divisible by `num_heads`, construction succeeds in both modes (no
divisibility check is performed at construction); in split mode
(`is_output_transform` False) the first call on a non-empty rank-3 input
fails. -/
theorem mhd_indivisible_behaviour (n h : Nat) (ub : Bool) (a b c : Nat)
    (hnd : n % h ≠ 0) (ha : 0 < a) (hb : 0 < b) :
    exOk (MultiHeadDenseLayer.init (.scalar n) h ub true) = true ∧
    ∃ m, MultiHeadDenseLayer.init (.scalar n) h ub false = .ok m ∧
      exOk (m.call [a, b, c]) = false := by
  have hn0 : n ≠ 0 := by
    intro h0
    exact hnd (by simp [h0])
  refine ⟨?_, ⟨.scalar n, h, ub, false⟩, ?_, ?_⟩
  · simp [MultiHeadDenseLayer.init, OutputUnits.is_nested, exOk]
  · simp [MultiHeadDenseLayer.init, OutputUnits.is_nested]
  · rw [mhd_call_split_scalar n h ub a b c hn0]
    rw [if_neg]
    · rfl
    · intro heq
      have hlt : h * (n / h) < n := by
        have hmod := Nat.div_add_mod n h
        omega
      have hab : 0 < a * b := Nat.mul_pos ha hb
      have : a * b * (h * (n / h)) < a * b * n :=
        mul_lt_mul_of_pos_left hlt hab
      omega

/-- Witness for C1 (amended) at `output_units = 7`, `num_heads = 2`,
input shape `[1, 1, 4]`. -/
theorem mhd_indivisible_behaviour_witness :
    exOk (MultiHeadDenseLayer.init (.scalar 7) 2 true true) = true ∧
    ∃ m, MultiHeadDenseLayer.init (.scalar 7) 2 true false = .ok m ∧
      exOk (m.call [1, 1, 4]) = false :=
  mhd_indivisible_behaviour 7 2 true 1 1 4 (by decide) (by decide) (by decide)

/-- Claim C3: for a scalar `output_units` divisible by `num_heads`, the
split-mode layer constructs successfully, its call on a rank-3 input
returns a single tensor whose last two dimensions are
`[num_heads, output_units / num_heads]`, and flattening those two
dimensions back recovers `[a, b, output_units]`. -/
theorem mhd_split_shape (n h a b c : Nat) (ub : Bool)
    (hn : 0 < n) (hd : n % h = 0) :
    ∃ m, MultiHeadDenseLayer.init (.scalar n) h ub false = .ok m ∧
      m.call [a, b, c] = .ok [[a, b, h, n / h]] ∧
      mergeHeadsShape [a, b, h, n / h] = [a, b, n] := by
  have hn0 : n ≠ 0 := Nat.pos_iff_ne_zero.mp hn
  have hmul : h * (n / h) = n :=
    Nat.mul_div_cancel' (Nat.dvd_of_mod_eq_zero hd)
  refine ⟨⟨.scalar n, h, ub, false⟩, ?_, ?_, ?_⟩
  · simp [MultiHeadDenseLayer.init, OutputUnits.is_nested]
  · rw [mhd_call_split_scalar n h ub a b c hn0, if_pos (by rw [hmul])]
  · simp [mergeHeadsShape, hmul]

/-- Witness for C3 at `output_units = 8`, `num_heads = 2`, input shape
`[3, 5, 4]`. -/
theorem mhd_split_shape_witness :
    ∃ m, MultiHeadDenseLayer.init (.scalar 8) 2 true false = .ok m ∧
      m.call [3, 5, 4] = .ok [[3, 5, 2, 4]] ∧
      mergeHeadsShape [3, 5, 2, 4] = [3, 5, 8] :=
  mhd_split_shape 8 2 3 5 4 true (by decide) (by decide)

/-- Claim C4: constructing `MultiHeadDenseLayer` with a nested
`output_units` and `is_output_transform=True` raises at construction time
(the assertion at line 179), before any call is made. -/
theorem mhd_nested_transform_init_fails (l : List Nat) (h : Nat) (ub : Bool) :
    MultiHeadDenseLayer.init (.nested l) h ub true =
      .error "AssertionError: not tf.nest.is_nested(output_units)" := rfl

/-- Claim C5: whenever the wrapper's timing is `None` or the call's `mode`
keyword argument (defaulting to `"embedding"`) differs from
`"embedding"`, `PositionEmbeddingWrapper.call` returns the wrapped
embedding layer's output unchanged, raising no error. -/
theorem pos_emb_mode_passthrough {I : Type} (w : PositionEmbeddingWrapper)
    (embedding_layer : I → Kwargs → TTensor) (inputs : I)
    (time : Option Nat) (kwargs : Kwargs)
    (h : w.timing = none ∨
      (kwargs.lookup ("mode")).getD (.pyStr ("embedding")) ≠
        PyVal.pyStr ("embedding")) :
    w.call embedding_layer inputs time kwargs =
      .ok (embedding_layer inputs kwargs) := by
  simp only [PositionEmbeddingWrapper.call]
  rw [if_pos h]

/-- Witness for C5: a wrapper with timing `None` passes its embedding
output through unchanged. -/
theorem pos_emb_mode_passthrough_witness :
    PositionEmbeddingWrapper.call ⟨none, 4, 512, fun _ _ => 0⟩
      (fun (_ : Unit) _ => TTensor.r2 1 4 (fun _ _ => 1)) () none [] =
      .ok (TTensor.r2 1 4 (fun _ _ => 1)) :=
  pos_emb_mode_passthrough _ _ _ _ _ (Or.inl rfl)

/-- Claim C6: with a non-`None` timing, in embedding mode, a call whose
embedding output is rank 2 (single-step) with `time` omitted raises at
call time, while a rank-3 (full-sequence) call with matching embedding
dimension succeeds without a `time` argument. -/
theorem pos_emb_single_step_time_required {I : Type}
    (w : PositionEmbeddingWrapper) (hw : w.timing ≠ none)
    (embedding_layer : I → Kwargs → TTensor) (inputs : I) (kwargs : Kwargs)
    (hmode : (kwargs.lookup ("mode")).getD (.pyStr ("embedding")) =
      PyVal.pyStr ("embedding")) :
    ((embedding_layer inputs kwargs).ndims = 2 →
      exOk (w.call embedding_layer inputs none kwargs) = false) ∧
    ((embedding_layer inputs kwargs).ndims = 3 →
      (embedding_layer inputs kwargs).lastDim = w.embedding_dim →
      ∃ y, w.call embedding_layer inputs none kwargs = .ok y) := by
  have hcond : ¬ (w.timing = none ∨
      (kwargs.lookup ("mode")).getD (.pyStr ("embedding")) ≠
        PyVal.pyStr ("embedding")) := by
    simp only [not_or]
    exact ⟨hw, fun hne => hne hmode⟩
  constructor
  · intro h2
    simp only [PositionEmbeddingWrapper.call, if_neg hcond]
    by_cases hdim :
        (embedding_layer inputs kwargs).lastDim = w.embedding_dim
    · rw [if_neg (by simp [hdim])]
      rw [if_pos ⟨h2, trivial⟩]
      rfl
    · rw [if_pos hdim]
      rfl
  · intro h3 hdim
    simp only [PositionEmbeddingWrapper.call, if_neg hcond]
    rw [if_neg (by simp [hdim])]
    rw [if_neg (by simp [h3])]
    cases htiming : w.timing with
    | none => exact absurd htiming hw
    | some t =>
      cases t with
      | sinusoids =>
        cases hE : embedding_layer inputs kwargs with
        | r2 bsz ch d =>
          rw [hE] at h3
          simp [TTensor.ndims] at h3
        | r3 bsz len ch d =>
          exact ⟨_, rfl⟩
      | emb =>
        cases hE : embedding_layer inputs kwargs with
        | r2 bsz ch d =>
          rw [hE] at h3
          simp [TTensor.ndims] at h3
        | r3 bsz len ch d =>
          exact ⟨_, rfl⟩

/-- Witness for C6: a sinusoids wrapper with embedding dimension 4 — the
rank-2 single-step call without `time` fails, and the rank-3
full-sequence call without `time` succeeds. -/
theorem pos_emb_single_step_time_required_witness :
    exOk (PositionEmbeddingWrapper.call
      ⟨some .sinusoids, 4, 512, fun _ _ => 0⟩
      (fun (_ : Unit) _ => TTensor.r2 1 4 (fun _ _ => 0)) () none []) = false ∧
    ∃ y, PositionEmbeddingWrapper.call
      ⟨some .sinusoids, 4, 512, fun _ _ => 0⟩
      (fun (_ : Unit) _ => TTensor.r3 1 2 4 (fun _ _ _ => 0)) () none [] =
      .ok y :=
  ⟨(pos_emb_single_step_time_required
      ⟨some .sinusoids, 4, 512, fun _ _ => 0⟩
      (fun h => Option.noConfusion h) _ () [] rfl).1 rfl,
   (pos_emb_single_step_time_required
      ⟨some .sinusoids, 4, 512, fun _ _ => 0⟩
      (fun h => Option.noConfusion h) _ () [] rfl).2 rfl rfl⟩

/-- Under exact real arithmetic — the intended semantics of
`add_sinusoids_timing_signal`, in which the timescale division at
lines 356-358 never produces an infinity — the timing signal added at
absolute position 0 is `0` on the first `channels / 2` channels (the
sine half, `sin 0 = 0`), `1` on the next `channels / 2` channels (the
cosine half, `cos 0 = 1`), and `0` on the trailing padding channel when
the channel count is odd — both for a rank-3 input at sequence position
0 and for a rank-2 input at `time = 0`.  Under TensorFlow float
arithmetic this is the actual behaviour for every channel count other
than 2 and 3; see the theorem on `fp_timingSignal` below for those two. -/
theorem sinusoids_position_zero (bsz len ch : Nat)
    (d3 : Nat → Nat → Nat → ℝ) (d2 : Nat → Nat → ℝ) (t : Option Nat)
    (mn mx : ℝ) (b c : Nat) :
    exData3 (PositionEmbeddingWrapper.add_sinusoids_timing_signal
        (.r3 bsz len ch d3) t mn mx) b 0 c
      = d3 b 0 c +
        (if c < ch / 2 then 0 else if c < 2 * (ch / 2) then 1 else 0) ∧
    exData2 (PositionEmbeddingWrapper.add_sinusoids_timing_signal
        (.r2 bsz ch d2) (some 0) mn mx) b c
      = d2 b c +
        (if c < ch / 2 then 0 else if c < 2 * (ch / 2) then 1 else 0) := by
  constructor <;>
  · simp only [PositionEmbeddingWrapper.add_sinusoids_timing_signal,
      exData3, exData2, timingSignal, num_timescales, Nat.cast_zero,
      zero_mul, Real.sin_zero, Real.cos_zero]

/-- Claim C7 (evaluation of the code at the failing inputs): under
TensorFlow float arithmetic with the default timescales, for channel
counts 2 and 3 the timing signal at position 0 is `nan` on every sine
and cosine channel — not the claimed 0/1 pattern.  With
`num_timescales = 1`, line 358 computes `log(1e4) / 0.0 = +inf`, and
line 360 computes `0 * -inf = nan` inside `exp`, so `inv_timescales` is
`nan` and so is the signal at every position (only the odd-channel
padding entry stays finite at 0). -/
theorem fp_sinusoids_nan_at_two_and_three_channels :
    fp_timingSignal 1 10000 2 0 0 = .nan ∧
    fp_timingSignal 1 10000 2 0 1 = .nan ∧
    fp_timingSignal 1 10000 3 0 0 = .nan ∧
    fp_timingSignal 1 10000 3 0 1 = .nan ∧
    fp_timingSignal 1 10000 3 0 2 = .fin 0 := by
  have hlog : (0:ℝ) < Real.log (10000 / 1) := Real.log_pos (by norm_num)
  have hinc2 : fp_log_timescale_increment 1 10000 2 = FpVal.posInf := by
    have hden : ((num_timescales 2 : ℝ) - 1) = 0 := by
      norm_num [num_timescales]
    unfold fp_log_timescale_increment fpDivFin
    rw [if_pos hden, if_pos hlog]
  have hinc3 : fp_log_timescale_increment 1 10000 3 = FpVal.posInf := by
    have hden : ((num_timescales 3 : ℝ) - 1) = 0 := by
      norm_num [num_timescales]
    unfold fp_log_timescale_increment fpDivFin
    rw [if_pos hden, if_pos hlog]
  have hinv2 : fp_inv_timescale 1 10000 2 0 = FpVal.nan := by
    unfold fp_inv_timescale
    rw [hinc2]
    norm_num [FpVal.fneg, FpVal.fmul, FpVal.fexp]
  have hinv3 : fp_inv_timescale 1 10000 3 0 = FpVal.nan := by
    unfold fp_inv_timescale
    rw [hinc3]
    norm_num [FpVal.fneg, FpVal.fmul, FpVal.fexp]
  refine ⟨?_, ?_, ?_, ?_, ?_⟩ <;>
    simp [fp_timingSignal, num_timescales, hinv2, hinv3,
      FpVal.fmul, FpVal.fsin, FpVal.fcos]

/-- Claim C10: on a rank-3 input, `add_sinusoids_timing_signal` returns a
tensor of the same shape equal to the input plus a signal that does not
depend on the input's values, the batch index, the batch size, the
declared length, or the `time` argument — only on the channel count and
the timescale bounds — so the same signal is added to every batch element
at a given position and channel. -/
theorem sinusoids_signal_input_independent (ch : Nat) (mn mx : ℝ)
    (bsz len bsz2 len2 : Nat) (f f2 : Nat → Nat → Nat → ℝ)
    (t t2 : Option Nat) (b b2 p c : Nat) :
    (∃ g, PositionEmbeddingWrapper.add_sinusoids_timing_signal
        (.r3 bsz len ch f) t mn mx = .ok (.r3 bsz len ch g)) ∧
    exData3 (PositionEmbeddingWrapper.add_sinusoids_timing_signal
        (.r3 bsz len ch f) t mn mx) b p c - f b p c
      = exData3 (PositionEmbeddingWrapper.add_sinusoids_timing_signal
          (.r3 bsz2 len2 ch f2) t2 mn mx) b2 p c - f2 b2 p c := by
  constructor
  · exact ⟨_, rfl⟩
  · simp [PositionEmbeddingWrapper.add_sinusoids_timing_signal, exData3]

end Neurst
